import Mathlib

/-
Verification of the puppet module of the LinkedIn <-> Matrix bridge
(src/linkedin_matrix/puppet.py), as a shallow embedding in Lean 4.

Strings (Python `str`, `UserID`, `ContentURI`) are modelled as `List Char`.
Python dictionaries with a fixed set of optional keys are modelled as
structures with `Option` fields; `None` and a missing key are both `none`
(indistinguishable through `.get`).  Exceptions are modelled with
`Except PyErr`; collaborator behaviour (identity service, HTTP, store)
is an explicit `Env` record of outcomes for the at-most-one call each
collaborator receives per sync.
-/

namespace LinkedinMatrix

abbrev Str := List Char

/-- Python truthiness of an `Optional[str]`: `None` and the empty string
are falsy, every other string is truthy. -/
def truthyO : Option Str → Bool
  | none => false
  | some s => !s.isEmpty

def noneLit : Str := "None".data

def spaceLit : Str := " ".data

/-- Python `str(x)` as used by f-strings and `str.format` on an
`Optional[str]` value: `None` renders as the four letters `None`. -/
def pyStr : Option Str → Str
  | none => noneLit
  | some s => s

-- region Identifier mapper

/-- Modelled from the spec: the username template machinery
(`SimpleTemplate` of the mautrix library, used at puppet.py:80-86 and
288-294) is not part of this repository's sources.  Spec section 4.1
describes it as a prefix + one-placeholder body + suffix pair; folding
the parts before and after the placeholder into the `@`-prefix and the
`:domain`-suffix leaves a pair of fixed strings around the key. -/
structure MxidTemplate where
  pfx : Str
  sfx : Str
deriving DecidableEq

/-- `Puppet.get_mxid_from_id` (puppet.py:292-294): format the local mxid
for a remote member URN by wrapping it in the template's fixed parts. -/
def get_mxid_from_id (t : MxidTemplate) (k : Str) : Str :=
  t.pfx ++ k ++ t.sfx

/-- `Puppet.get_id_from_mxid` (puppet.py:288-290): parse an mxid back to
the remote member URN; `none` when the shape does not match.  Modelled
from the spec for the `SimpleTemplate.parse` part: check the fixed
parts, then return the middle slice. -/
def get_id_from_mxid (t : MxidTemplate) (mxid : Str) : Option Str :=
  if t.pfx <+: mxid ∧ t.sfx <:+ mxid then
    some ((mxid.drop t.pfx.length).take (mxid.length - t.sfx.length - t.pfx.length))
  else none

-- endregion

-- region Puppet state

/-- The persisted / in-memory fields of a `Puppet`
(puppet.py:41-64): member URN, profile fields, applied-flags,
double-puppeting fields and the transient last-sync timestamp. -/
structure Puppet where
  li_member_urn : Str
  name : Option Str
  photo_id : Option Str
  photo_mxc : Option Str
  name_set : Bool
  avatar_set : Bool
  is_registered : Bool
  custom_mxid : Option Str
  next_batch : Option Str
  last_info_sync : Option Nat
deriving DecidableEq

def withName (p : Puppet) (v : Option Str) : Puppet :=
  Puppet.mk p.li_member_urn v p.photo_id p.photo_mxc p.name_set p.avatar_set
    p.is_registered p.custom_mxid p.next_batch p.last_info_sync

def withNameSet (p : Puppet) (b : Bool) : Puppet :=
  Puppet.mk p.li_member_urn p.name p.photo_id p.photo_mxc b p.avatar_set
    p.is_registered p.custom_mxid p.next_batch p.last_info_sync

def withPhotoId (p : Puppet) (v : Option Str) : Puppet :=
  Puppet.mk p.li_member_urn p.name v p.photo_mxc p.name_set p.avatar_set
    p.is_registered p.custom_mxid p.next_batch p.last_info_sync

def withPhotoMxc (p : Puppet) (v : Option Str) : Puppet :=
  Puppet.mk p.li_member_urn p.name p.photo_id v p.name_set p.avatar_set
    p.is_registered p.custom_mxid p.next_batch p.last_info_sync

def withAvatarSet (p : Puppet) (b : Bool) : Puppet :=
  Puppet.mk p.li_member_urn p.name p.photo_id p.photo_mxc p.name_set b
    p.is_registered p.custom_mxid p.next_batch p.last_info_sync

def withLastSync (p : Puppet) (v : Option Nat) : Puppet :=
  Puppet.mk p.li_member_urn p.name p.photo_id p.photo_mxc p.name_set p.avatar_set
    p.is_registered p.custom_mxid p.next_batch v

-- endregion

-- region photo_id_re

def httpsLit : Str := "https://".data

def imageLit : Str := "/image/".data

def profileDashLit : Str := "/profile-".data

def nlChar : Char := Char.ofNat 10

/-- Scan for the first index `i ≤ j` at which `pat` occurs in `s`,
where every character skipped over must be matchable by regex `.`
(anything but a newline); `none` if the end of `s` or a newline is
reached first.  This is the semantics of a lazy `.*?` followed by the
literal `pat`.  Fuel-based so the kernel can evaluate it; fuel
`s.length + 1` is always enough. -/
def findSubFuel (pat s : Str) : Nat → Nat → Option Nat
  | 0, _ => none
  | Nat.succ f, i =>
    if pat.isPrefixOf (s.drop i) then some i
    else
      match s.drop i with
      | [] => none
      | c :: _ => if c = nlChar then none else findSubFuel pat s f (i + 1)

def findSub (pat s : Str) (i : Nat) : Option Nat :=
  findSubFuel pat s (s.length + 1) i

/-- Backtracking loop of `photo_id_re.match`: for each candidate
position `k ≥ i` of the literal `/image/` (reached by lazily expanding
the first `.*?`), lazily look for `/profile-` after the captured group;
on failure, expand the first `.*?` past `k` and retry.  The trailing
`.*?` of the pattern matches the empty string and constrains nothing. -/
def photoIdAux (s : Str) : Nat → Nat → Option Str
  | 0, _ => none
  | Nat.succ f, i =>
    match findSub imageLit s i with
    | none => none
    | some k =>
      match findSub profileDashLit s (k + 7) with
      | some j => some ((s.drop (k + 7)).take (j - (k + 7)))
      | none => photoIdAux s f (k + 1)

/-- `Puppet.photo_id_re.match(url)` followed by `.group(1)`
(puppet.py:182, 188-190): the compiled pattern is
`https://.*?/image/(.*?)/profile-.*?`, anchored at the start by
`re.match`; `/image/` and `/profile-` are 7 and 9 literal characters. -/
def photo_id_match (s : Str) : Option Str :=
  if httpsLit.isPrefixOf s then photoIdAux s (s.length + 1) 8 else none

-- endregion

-- region Exceptions and collaborator behaviour

/-- The Python exceptions that can cross function boundaries in this
module: the bare `Exception` raised by `reupload_avatar` on a
non-successful download, an exception from `upload_media`, dictionary
`KeyError` / list `IndexError` on the artifact access, the
`AttributeError` from evaluating `source.li_member_urn` on `None`, and
an exception from `save`. -/
inductive PyErr
  | fetchErr
  | uploadErr
  | keyErr
  | indexErr
  | attrErr
  | saveErr
deriving DecidableEq

/-- Outcome of each collaborator call a single `update_info` run can
make (each collaborator is called at most once per run): whether
`set_displayname`, the avatar HTTP GET, `upload_media`,
`set_avatar_url` and `save` succeed, the content reference returned by
a successful upload, and the current wall-clock reading of
`datetime.now()`. -/
structure Env where
  set_displayname_ok : Bool
  http_ok : Bool
  upload_ok : Bool
  upload_result : Str
  set_avatar_ok : Bool
  save_ok : Bool
  now : Nat
deriving DecidableEq

-- endregion

-- region Profile info structures

/-- One entry of `picture["artifacts"]`; the
`fileIdentifyingUrlPathSegment` key may be absent (`none`), in which
case indexing it raises `KeyError`. -/
structure Artifact where
  fileIdentifyingUrlPathSegment : Option Str
deriving DecidableEq

/-- The `com.linkedin.common.VectorImage` dictionary: `rootUrl` read
with `.get` (missing ⇒ `None`), `artifacts` read with `[...]`
(missing ⇒ `KeyError`). -/
structure VectorImage where
  rootUrl : Option Str
  artifacts : Option (List Artifact)
deriving DecidableEq

/-- The `picture` dictionary, holding the VectorImage under the
`com.linkedin.common.VectorImage` key. -/
structure PictureDict where
  vectorImage : Option VectorImage
deriving DecidableEq

/-- The `miniProfile` dictionary. -/
structure MiniProfile where
  firstName : Option Str
  lastName : Option Str
  picture : Option PictureDict
deriving DecidableEq

/-- A non-empty `info` dictionary; the empty / `None` case of
`update_info`'s `if not info:` test is the `none` of an
`Option Info`. -/
structure Info where
  miniProfile : Option MiniProfile
deriving DecidableEq

/-- The chained
`info.get("miniProfile", {}).get("picture", {}).get("com.linkedin.common.VectorImage", {})`
of puppet.py:129-131; each missing level collapses to the empty dict,
modelled as `none`. -/
def pictureChain (i : Info) : Option VectorImage :=
  (i.miniProfile.bind MiniProfile.picture).bind PictureDict.vectorImage

-- endregion

-- region Display name computation

def keyDisplayname : Str := "displayname".data

def keyName : Str := "name".data

def keyFirstName : Str := "first_name".data

def keyLastName : Str := "last_name".data

/-- The composite `f"{first} {last}"` of puppet.py:172: Python renders
a missing component as the string `None`, so the composite always
contains at least the space. -/
def compositeName (first last : Option Str) : Str :=
  pyStr first ++ spaceLit ++ pyStr last

/-- `info.get(preference)` over the local dict built at
puppet.py:170-175, before any assignment to `displayname` (the loop
breaks right after the one assignment, so lookups always see the
initial `None` there); unknown preference keys yield `None`. -/
def dnCandidates (first last : Option Str) (k : Str) : Option Str :=
  if k = keyDisplayname then none
  else if k = keyName then some (compositeName first last)
  else if k = keyFirstName then first
  else if k = keyLastName then last
  else none

/-- The preference loop of puppet.py:176-179: walk the configured list,
assign-and-break at the first truthy candidate; result is the value
assigned to `info["displayname"]` (or `none` when the loop never
assigns). -/
def pickDisplayname : List Str → (Str → Option Str) → Option Str
  | [], _ => none
  | k :: rest, d =>
    match d k with
    | none => pickDisplayname rest d
    | some v => if v.isEmpty then pickDisplayname rest d else some v

/-- One piece of the configured `bridge.displayname_template` format
string: literal text or a `{key}` placeholder. -/
inductive TItem
  | lit (s : Str)
  | field (k : Str)
deriving DecidableEq

/-- The options of the bridge config consumed by `_get_displayname`. -/
structure BridgeConfig where
  displayname_preference : List Str
  displayname_template : List TItem
deriving DecidableEq

/-- The dict passed to `str.format(**info)` at puppet.py:180, after the
preference loop stored its pick under `displayname`.  Outer `Option` is
key presence (a placeholder naming a missing key raises `KeyError`),
inner `Option` is the value, where `None` renders as `None`. -/
def dnFormatDict (first last picked : Option Str) (k : Str) : Option (Option Str) :=
  if k = keyDisplayname then some picked
  else if k = keyName then some (some (compositeName first last))
  else if k = keyFirstName then some first
  else if k = keyLastName then some last
  else none

/-- Python `template.format(**d)` for a template made of literals and
simple placeholders. -/
def renderTemplate : List TItem → (Str → Option (Option Str)) → Except PyErr Str
  | [], _ => Except.ok []
  | TItem.lit s :: rest, d => (renderTemplate rest d).map fun tl => s ++ tl
  | TItem.field k :: rest, d =>
    match d k with
    | none => Except.error PyErr.keyErr
    | some v => (renderTemplate rest d).map fun tl => pyStr v ++ tl

/-- `Puppet._get_displayname` (puppet.py:166-180). -/
def get_displayname (cfg : BridgeConfig) (i : Info) : Except PyErr Str :=
  let first := i.miniProfile.bind MiniProfile.firstName
  let last := i.miniProfile.bind MiniProfile.lastName
  let picked := pickDisplayname cfg.displayname_preference (dnCandidates first last)
  renderTemplate cfg.displayname_template (dnFormatDict first last picked)

-- endregion

-- region Profile synchronizer

/-- `Puppet.reupload_avatar` (puppet.py:144-151): HTTP GET the url,
raise on a non-ok response, sniff the MIME type from the bytes (pure,
folded into the upload) and upload through the intent; `upload_media`
itself may also fail. -/
def reupload_avatar (env : Env) (_url : Str) : Except PyErr Str :=
  if env.http_ok then
    if env.upload_ok then Except.ok env.upload_result
    else Except.error PyErr.uploadErr
  else Except.error PyErr.fetchErr

/-- `Puppet._update_name` (puppet.py:153-164): recompute the display
name, and when it differs from the stored one or `name_set` is false,
store it and try to push it, catching any push failure locally.  A
failure inside `_get_displayname` (a `KeyError` from the format call)
happens before the `try` and propagates. -/
def update_name (cfg : BridgeConfig) (env : Env) (i : Info) (p : Puppet) :
    Puppet × Except PyErr Bool :=
  match get_displayname cfg i with
  | Except.error e => (p, Except.error e)
  | Except.ok dn =>
    if some dn ≠ p.name ∨ p.name_set = false then
      if env.set_displayname_ok then
        (withNameSet (withName p (some dn)) true, Except.ok true)
      else (withNameSet (withName p (some dn)) false, Except.ok true)
    else (p, Except.ok false)

/-- The photo id extracted at puppet.py:185-190: `picture.get("rootUrl")`,
and when that is truthy, `photo_id_re.match` / `.group(1)`. -/
def extract_photo_id (pic : Option VectorImage) : Option Str :=
  match pic.bind VectorImage.rootUrl with
  | none => none
  | some u => if u.isEmpty then none else photo_id_match u

/-- `Puppet._update_photo` (puppet.py:184-216).  Note the order of
operations in the changed branch: `self.photo_id` is assigned first,
then (for a truthy id) the artifact path segment is read — raising
`KeyError`/`IndexError` if absent — and the avatar is downloaded and
re-uploaded, whose failures propagate; only the final
`set_avatar_url` push is wrapped in a local `try`. -/
def update_photo (env : Env) (pic : Option VectorImage) (p : Puppet) :
    Puppet × Except PyErr Bool :=
  if extract_photo_id pic ≠ p.photo_id ∨ p.avatar_set = false then
    if truthyO (extract_photo_id pic) then
      match pic with
      | none => (withPhotoId p (extract_photo_id pic), Except.error PyErr.keyErr)
      | some vi =>
        match vi.artifacts with
        | none => (withPhotoId p (extract_photo_id pic), Except.error PyErr.keyErr)
        | some [] => (withPhotoId p (extract_photo_id pic), Except.error PyErr.indexErr)
        | some (a :: _) =>
          match a.fileIdentifyingUrlPathSegment with
          | none => (withPhotoId p (extract_photo_id pic), Except.error PyErr.keyErr)
          | some seg =>
            match reupload_avatar env ((vi.rootUrl.getD []) ++ seg) with
            | Except.error e => (withPhotoId p (extract_photo_id pic), Except.error e)
            | Except.ok mxc =>
              if env.set_avatar_ok then
                (withAvatarSet (withPhotoMxc (withPhotoId p (extract_photo_id pic)) (some mxc)) true,
                  Except.ok true)
              else
                (withAvatarSet (withPhotoMxc (withPhotoId p (extract_photo_id pic)) (some mxc)) false,
                  Except.ok true)
    else
      if env.set_avatar_ok then
        (withAvatarSet (withPhotoMxc (withPhotoId p (extract_photo_id pic)) (some [])) true,
          Except.ok true)
      else
        (withAvatarSet (withPhotoMxc (withPhotoId p (extract_photo_id pic)) (some [])) false,
          Except.ok true)
  else (p, Except.ok false)

/-- Whether the artifact access `picture["artifacts"][0][...]` of
puppet.py:197-199 succeeds on this picture. -/
def artifactsOk (pic : Option VectorImage) : Bool :=
  match pic with
  | none => false
  | some vi =>
    match vi.artifacts with
    | none => false
    | some [] => false
    | some (a :: _) => a.fileIdentifyingUrlPathSegment.isSome

/-- Observable outcome of one `update_info` run: the puppet's state
afterwards, whether the call returned normally (`ok`, in which case the
returned value is the puppet itself) or raised, and whether `save` was
invoked. -/
structure UpdateResult where
  state : Puppet
  result : Except PyErr Unit
  saved : Bool

/-- The `except Exception:` handler of puppet.py:138-141: the log line
interpolates `source.li_member_urn`, so a `None` source makes the
handler itself raise `AttributeError`; otherwise the exception is
logged and swallowed and the (possibly partially updated) puppet is
returned. -/
def handleExc (source : Option Str) (p : Puppet) (saved : Bool) : UpdateResult :=
  match source with
  | none => UpdateResult.mk p (Except.error PyErr.attrErr) saved
  | some _ => UpdateResult.mk p (Except.ok ()) saved

/-- `Puppet.update_info` (puppet.py:113-142): early return on falsy
info; otherwise stamp `_last_info_sync`, update name, optionally update
photo, save when anything changed, catching any escaped exception in
the handler above. -/
def update_info (cfg : BridgeConfig) (env : Env) (source : Option Str)
    (info : Option Info) (update_avatar : Bool) (p : Puppet) : UpdateResult :=
  match info with
  | none => UpdateResult.mk p (Except.ok ()) false
  | some i =>
    match update_name cfg env i (withLastSync p (some env.now)) with
    | (p1, Except.error _) => handleExc source p1 false
    | (p1, Except.ok changed) =>
      match (if update_avatar then update_photo env (pictureChain i) p1
             else (p1, Except.ok false)) with
      | (p2, Except.error _) => handleExc source p2 false
      | (p2, Except.ok c2) =>
        if c2 || changed then
          if env.save_ok then UpdateResult.mk p2 (Except.ok ()) true
          else handleExc source p2 true
        else UpdateResult.mk p2 (Except.ok ()) false

-- endregion

-- region Identity cache and registry

/-- The two class-level caches of puppet.py:38-39, as association lists
(newest binding first, like a dict overwritten in place). -/
structure Caches where
  by_li_member_urn : List (Str × Puppet)
  by_custom_mxid : List (Str × Puppet)
deriving DecidableEq

def lookupA : List (Str × Puppet) → Str → Option Puppet
  | [], _ => none
  | (k, p) :: rest, k2 => if k = k2 then some p else lookupA rest k2

/-- `Puppet._add_to_cache` (puppet.py:222-225). -/
def add_to_cache (c : Caches) (p : Puppet) : Caches :=
  let c1 := Caches.mk ((p.li_member_urn, p) :: c.by_li_member_urn) c.by_custom_mxid
  if truthyO p.custom_mxid then
    Caches.mk c1.by_li_member_urn ((p.custom_mxid.getD [], p) :: c1.by_custom_mxid)
  else c1

/-- The fresh puppet constructed at puppet.py:246:
`cls(li_member_urn, None, None, None, False, False)`. -/
def newPuppet (urn : Str) : Puppet :=
  Puppet.mk urn none none none false false false none none none

/-- Observable outcome of a registry lookup: the puppet found (if any),
the caches afterwards, whether the persistent store was queried, and
whether a fresh row was inserted. -/
structure LookupResult where
  res : Option Puppet
  caches : Caches
  store_queried : Bool
  inserted : Bool
deriving DecidableEq

/-- `Puppet.get_by_li_member_urn` (puppet.py:227-251), with the
persistent store abstracted as a lookup function (`super()`'s
`get_by_li_member_urn`). -/
def get_by_li_member_urn (store : Str → Option Puppet) (c : Caches)
    (urn : Str) (create : Bool) : LookupResult :=
  match lookupA c.by_li_member_urn urn with
  | some p => LookupResult.mk (some p) c false false
  | none =>
    match store urn with
    | some p => LookupResult.mk (some p) (add_to_cache c p) true false
    | none =>
      if create then
        let p := newPuppet urn
        LookupResult.mk (some p) (add_to_cache c p) true true
      else LookupResult.mk none c true false

/-- `Puppet.get_by_mxid` (puppet.py:253-259): recover the member URN
from the mxid; when it is truthy delegate to `get_by_li_member_urn`,
otherwise return `None` without touching store or caches. -/
def get_by_mxid (t : MxidTemplate) (store : Str → Option Puppet) (c : Caches)
    (mxid : Str) (create : Bool) : LookupResult :=
  match get_id_from_mxid t mxid with
  | some urn =>
    if urn.isEmpty then LookupResult.mk none c false false
    else get_by_li_member_urn store c urn create
  | none => LookupResult.mk none c false false

-- endregion

-- region Concrete inputs used by witnesses and counterexamples

def scenarioBUrl : Str :=
  "https://media.licdn.com/image/ABC123/profile-displayphoto-shrink_100_100".data

def abc123Lit : Str := "ABC123".data

def noneNoneLit : Str := "None None".data

def urnW : Str := "urn123".data

def liPfxW : Str := "@li_".data

def domSfxW : Str := ":example.com".data

def tmplW : MxidTemplate := MxidTemplate.mk liPfxW domSfxW

def mxidBogusW : Str := "@other:example.com".data

def storeEmptyW : Str → Option Puppet := fun _ => none

def cachesEmptyW : Caches := Caches.mk [] []

def adaFirstW : Str := "Ada".data

def adaLastW : Str := "Lovelace".data

def adaNameW : Str := "Ada Lovelace".data

/-- Preference `["name"]`, template `"{displayname}"` (spec scenario A). -/
def cfgW : BridgeConfig := BridgeConfig.mk [keyName] [TItem.field keyDisplayname]

def infoW : Info :=
  Info.mk (some (MiniProfile.mk (some adaFirstW) (some adaLastW) none))

/-- Identity service rejects `set_displayname`; everything else fine. -/
def envSdFailW : Env := Env.mk false true true [] true true 0

/-- `save` raises; everything else fine. -/
def envSaveFailW : Env := Env.mk true true true [] true false 7

/-- The avatar HTTP download fails; everything else fine. -/
def envHttpFailW : Env := Env.mk true false true [] true true 3

def oldIdW : Str := "OLD".data

def newIdW : Str := "NEW777".data

def newRootUrlW : Str := "https://media.licdn.com/image/NEW777/profile-pic".data

def segW : Str := "/seg100".data

def artifactW : Artifact := Artifact.mk (some segW)

def viW : VectorImage := VectorImage.mk (some newRootUrlW) (some [artifactW])

def mxcOldW : Str := "mxc-old".data

/-- A puppet whose avatar `OLD` has been applied successfully. -/
def pOldW : Puppet :=
  Puppet.mk urnW none (some oldIdW) (some mxcOldW) true true false none none none

def mxcNewW : Str := "mxc-new".data

/-- All collaborator calls succeed. -/
def envOkW : Env := Env.mk true true true mxcNewW true true 7

/-- Scenario-A profile together with a picture descriptor. -/
def infoPicW : Info :=
  Info.mk (some (MiniProfile.mk (some adaFirstW) (some adaLastW)
    (some (PictureDict.mk (some viW)))))

-- endregion

-- region Theorems

/-- Claim C1: for every remote user key `k` (and every configured
template), parsing the formatted local identifier recovers `k`:
`get_id_from_mxid (get_mxid_from_id k) = some k`.  Both functions are
plain total functions of their arguments (pure by construction). -/
theorem mxid_round_trip (t : MxidTemplate) (k : Str) :
    get_id_from_mxid t (get_mxid_from_id t k) = some k := by
  unfold get_id_from_mxid get_mxid_from_id
  rw [if_pos]
  · congr 1
    have h2 : (t.pfx ++ k ++ t.sfx).length - t.sfx.length - t.pfx.length = k.length := by
      simp only [List.length_append]
      omega
    rw [h2, List.append_assoc, List.drop_left, List.take_left]
  · exact ⟨⟨k ++ t.sfx, (List.append_assoc _ _ _).symm⟩, ⟨t.pfx ++ k, rfl⟩⟩

/-- Claim C8: matching `photo_id_re` against the scenario-B URL
`https://media.licdn.com/image/ABC123/profile-displayphoto-shrink_100_100`
succeeds and captures `ABC123` as group 1. -/
theorem photo_id_re_scenario_b :
    photo_id_match scenarioBUrl = some abc123Lit := by decide

/-- Claim C7: `update_info` with a falsy info returns the puppet with
every field unchanged (including the sync timestamp), reports no save,
and the outcome does not depend on any collaborator behaviour (the
`Env` is universally quantified and absent from the right-hand side),
so no collaborator is consulted. -/
theorem update_info_empty_info (cfg : BridgeConfig) (env : Env) (source : Option Str)
    (update_avatar : Bool) (p : Puppet) :
    update_info cfg env source none update_avatar p =
      UpdateResult.mk p (Except.ok ()) false := rfl

/-- Claim C9: when the username template fails to parse the mxid,
`get_by_mxid` returns `none`, leaves both caches untouched, queries no
store (for any store whatsoever) and inserts nothing. -/
theorem get_by_mxid_no_parse (t : MxidTemplate) (store : Str → Option Puppet)
    (c : Caches) (mxid : Str) (create : Bool)
    (h : get_id_from_mxid t mxid = none) :
    get_by_mxid t store c mxid create = LookupResult.mk none c false false := by
  unfold get_by_mxid
  rw [h]

/-- Witness for C9 at a concrete non-matching mxid. -/
theorem get_by_mxid_no_parse_witness :
    get_by_mxid tmplW storeEmptyW cachesEmptyW mxidBogusW true =
      LookupResult.mk none cachesEmptyW false false :=
  get_by_mxid_no_parse tmplW storeEmptyW cachesEmptyW mxidBogusW true (by decide)

/-- Claim C4: when the computed display name differs from the stored
one (or `name_set` is false) and the `set_displayname` push raises,
`_update_name` stores the new name, resets `name_set` to false, returns
`True`, and does not propagate the exception. -/
theorem update_name_push_fail (cfg : BridgeConfig) (env : Env) (i : Info)
    (p : Puppet) (dn : Str)
    (hdn : get_displayname cfg i = Except.ok dn)
    (hcond : some dn ≠ p.name ∨ p.name_set = false)
    (hsd : env.set_displayname_ok = false) :
    update_name cfg env i p =
      (withNameSet (withName p (some dn)) false, Except.ok true) := by
  unfold update_name
  rw [hdn, hsd]
  simp only [if_pos hcond, Bool.false_eq_true, if_false]

/-- Witness for C4: scenario-A profile, fresh puppet, rejecting
identity service. -/
theorem update_name_push_fail_witness :
    update_name cfgW envSdFailW infoW (newPuppet urnW) =
      (withNameSet (withName (newPuppet urnW) (some adaNameW)) false, Except.ok true) :=
  update_name_push_fail cfgW envSdFailW infoW (newPuppet urnW) adaNameW rfl
    (Or.inl (by decide)) rfl

/-- Claim C2 is wrong on the code (code bug): with a `None` source and
any failure inside the `try` block (here: `save` raising after a name
change), the `except` handler's log line evaluates
`source.li_member_urn` on `None` and `update_info` itself raises
`AttributeError` instead of swallowing.  This theorem evaluates the
embedded code at that failing input. -/
theorem update_info_none_source_raises :
    (update_info cfgW envSaveFailW none (some infoW) false (newPuppet urnW)).result =
      Except.error PyErr.attrErr := rfl

/-- Counterexample to claim C5 as stated: a puppet with applied avatar
`OLD` syncs a picture whose extracted id is `NEW777`; the download
fails, yet `photo_id` does NOT keep its pre-sync value — the code
assigns `self.photo_id` before downloading. -/
theorem update_photo_fetch_fail_counterexample :
    (update_photo envHttpFailW (some viW) pOldW).2 = Except.error PyErr.fetchErr ∧
    (update_photo envHttpFailW (some viW) pOldW).1.photo_id ≠ pOldW.photo_id := by
  exact ⟨rfl, by decide⟩

/-- Claim C5 amended: when the avatar download fails, `photo_mxc` and
`avatar_set` keep their pre-sync values and the exception only reaches
`update_info`'s logging handler, but `photo_id` has already been
overwritten with the newly extracted id. -/
theorem update_photo_fetch_fail (env : Env) (vi : VectorImage) (p : Puppet)
    (pid seg : Str) (a : Artifact) (rest : List Artifact)
    (hpid : extract_photo_id (some vi) = some pid)
    (hne : pid.isEmpty = false)
    (hcond : some pid ≠ p.photo_id ∨ p.avatar_set = false)
    (hart : vi.artifacts = some (a :: rest))
    (hseg : a.fileIdentifyingUrlPathSegment = some seg)
    (hhttp : env.http_ok = false) :
    update_photo env (some vi) p =
      (withPhotoId p (some pid), Except.error PyErr.fetchErr) := by
  unfold update_photo
  rw [hpid]
  rw [if_pos hcond]
  have ht : truthyO (some pid) = true := by simp [truthyO, hne]
  rw [ht]
  simp only [if_true, hart, hseg, reupload_avatar, hhttp, Bool.false_eq_true, if_false]

/-- Witness for the amended C5 at the concrete counterexample input. -/
theorem update_photo_fetch_fail_witness :
    update_photo envHttpFailW (some viW) pOldW =
      (withPhotoId pOldW (some newIdW), Except.error PyErr.fetchErr) :=
  update_photo_fetch_fail envHttpFailW viW pOldW newIdW segW artifactW []
    (by decide) rfl (Or.inl (by decide)) rfl rfl rfl

/-- Claim C10: with both `firstName` and `lastName` missing, the
composite `name` candidate is the non-empty string `None None`; hence
later preferences after `name` are never consulted, and whenever the
loop reaches `name` (all earlier preferences falsy) it selects it. -/
theorem displayname_missing_names (pre post : List Str) :
    dnCandidates none none keyName = some noneNoneLit ∧
    pickDisplayname (pre ++ keyName :: post) (dnCandidates none none) =
      pickDisplayname (pre ++ [keyName]) (dnCandidates none none) ∧
    ((∀ k, k ∈ pre → truthyO (dnCandidates none none k) = false) →
      pickDisplayname (pre ++ keyName :: post) (dnCandidates none none) =
        some noneNoneLit) := by
  refine ⟨rfl, ?_, ?_⟩
  · induction pre with
    | nil => rfl
    | cons k rest ih =>
      simp only [List.cons_append, pickDisplayname]
      cases h : dnCandidates none none k with
      | none => exact ih
      | some v =>
        cases hv : v.isEmpty with
        | true => simpa [hv] using ih
        | false => simp [hv]
  · induction pre with
    | nil => intro _; rfl
    | cons k rest ih =>
      intro hall
      have hrest : ∀ k2, k2 ∈ rest → truthyO (dnCandidates none none k2) = false :=
        fun k2 hm => hall k2 (List.mem_cons_of_mem _ hm)
      simp only [List.cons_append, pickDisplayname]
      cases h : dnCandidates none none k with
      | none => exact ih hrest
      | some v =>
        have hk := hall k (List.mem_cons_self _ _)
        rw [h] at hk
        have hv : v.isEmpty = true := by
          revert hk
          simp [truthyO]
        simpa [hv] using ih hrest

/-- Witness for C10: preference list `[displayname, name, last_name]`
with no first/last name picks `None None` at the `name` position. -/
theorem displayname_missing_names_witness :
    pickDisplayname ([keyDisplayname] ++ keyName :: [keyLastName])
      (dnCandidates none none) = some noneNoneLit :=
  (displayname_missing_names [keyDisplayname] [keyLastName]).2.2 (by decide)

/-- Helper: after `_update_name` with a computable display name and a
successful push, the name is stored and applied and every other field
is untouched; no exception escapes. -/
theorem update_name_ok_char (cfg : BridgeConfig) (env : Env) (i : Info)
    (p : Puppet) (dn : Str)
    (hdn : get_displayname cfg i = Except.ok dn)
    (hsd : env.set_displayname_ok = true) :
    ∃ q b, update_name cfg env i p = (q, Except.ok b) ∧
      q.name = some dn ∧ q.name_set = true ∧
      q.photo_id = p.photo_id ∧ q.photo_mxc = p.photo_mxc ∧
      q.avatar_set = p.avatar_set ∧ q.li_member_urn = p.li_member_urn ∧
      q.is_registered = p.is_registered ∧ q.custom_mxid = p.custom_mxid ∧
      q.next_batch = p.next_batch ∧ q.last_info_sync = p.last_info_sync := by
  simp only [update_name, hdn]
  by_cases hc : some dn ≠ p.name ∨ p.name_set = false
  · rw [if_pos hc, hsd]
    exact ⟨_, true, rfl, rfl, rfl, rfl, rfl, rfl, rfl, rfl, rfl, rfl, rfl⟩
  · rw [if_neg hc]
    push_neg at hc
    have hns : p.name_set = true := by
      cases hb : p.name_set
      · exact absurd hb hc.2
      · rfl
    exact ⟨p, false, rfl, hc.1.symm, hns, rfl, rfl, rfl, rfl, rfl, rfl, rfl, rfl⟩

/-- Helper: after `_update_photo` with successful download, upload and
push (and readable artifacts whenever the extracted id is truthy), the
extracted photo id is stored, the avatar is applied, and the
name-related fields and timestamp are untouched; no exception
escapes. -/
theorem update_photo_ok_char (env : Env) (pic : Option VectorImage) (p : Puppet)
    (hhttp : env.http_ok = true) (hup : env.upload_ok = true)
    (hav : env.set_avatar_ok = true)
    (hart : truthyO (extract_photo_id pic) = true → artifactsOk pic = true) :
    ∃ q b, update_photo env pic p = (q, Except.ok b) ∧
      q.photo_id = extract_photo_id pic ∧ q.avatar_set = true ∧
      q.name = p.name ∧ q.name_set = p.name_set ∧
      q.li_member_urn = p.li_member_urn ∧ q.is_registered = p.is_registered ∧
      q.custom_mxid = p.custom_mxid ∧ q.next_batch = p.next_batch ∧
      q.last_info_sync = p.last_info_sync := by
  simp only [update_photo]
  by_cases hc : extract_photo_id pic ≠ p.photo_id ∨ p.avatar_set = false
  · rw [if_pos hc, hav]
    cases ht : truthyO (extract_photo_id pic) with
    | false =>
      simp only [ht, Bool.false_eq_true, if_false]
      exact ⟨_, true, rfl, rfl, rfl, rfl, rfl, rfl, rfl, rfl, rfl, rfl⟩
    | true =>
      have hok := hart ht
      cases pic with
      | none => exact absurd hok (by decide)
      | some vi =>
        cases hvart : vi.artifacts with
        | none => rw [show artifactsOk (some vi) = false by simp [artifactsOk, hvart]] at hok; cases hok
        | some l =>
          cases l with
          | nil => rw [show artifactsOk (some vi) = false by simp [artifactsOk, hvart]] at hok; cases hok
          | cons a rest2 =>
            cases hseg : a.fileIdentifyingUrlPathSegment with
            | none =>
              rw [show artifactsOk (some vi) = false by simp [artifactsOk, hvart, hseg]] at hok
              cases hok
            | some seg =>
              simp only [ht, if_true, hvart, hseg, reupload_avatar, hhttp, hup]
              exact ⟨_, true, rfl, rfl, rfl, rfl, rfl, rfl, rfl, rfl, rfl, rfl⟩
  · rw [if_neg hc]
    push_neg at hc
    have has : p.avatar_set = true := by
      cases hb : p.avatar_set
      · exact absurd hb hc.2
      · rfl
    exact ⟨p, false, rfl, hc.1.symm, has, rfl, rfl, rfl, rfl, rfl, rfl, rfl⟩

/-- Helper: re-stamping the timestamp a puppet already carries changes
nothing. -/
theorem withLastSync_self (p : Puppet) (v : Option Nat)
    (h : p.last_info_sync = v) : withLastSync p v = p := by
  cases p
  dsimp only at h
  subst h
  rfl

/-- Claim C6: with all collaborator calls succeeding, one `update_info`
run returning normally leaves `name_set` and `avatar_set` true, and a
second run with the identical info is a no-op: the state (persisted
fields and timestamp alike, the environment being unchanged) stays
exactly the same and no save is performed. -/
theorem update_info_idempotent (cfg : BridgeConfig) (env : Env) (src : Option Str)
    (i : Info) (p : Puppet) (dn : Str)
    (hdn : get_displayname cfg i = Except.ok dn)
    (hsd : env.set_displayname_ok = true) (hhttp : env.http_ok = true)
    (hup : env.upload_ok = true) (hav : env.set_avatar_ok = true)
    (hsave : env.save_ok = true)
    (hart : truthyO (extract_photo_id (pictureChain i)) = true →
      artifactsOk (pictureChain i) = true) :
    (update_info cfg env src (some i) true p).result = Except.ok () ∧
    (update_info cfg env src (some i) true p).state.name_set = true ∧
    (update_info cfg env src (some i) true p).state.avatar_set = true ∧
    update_info cfg env src (some i) true (update_info cfg env src (some i) true p).state =
      UpdateResult.mk (update_info cfg env src (some i) true p).state
        (Except.ok ()) false := by
  obtain ⟨q1, b1, he1, hn1, hns1, hpid1, hmxc1, hav1, hurn1, hreg1, hcm1, hnb1, hls1⟩ :=
    update_name_ok_char cfg env i (withLastSync p (some env.now)) dn hdn hsd
  obtain ⟨q2, b2, he2, hpid2, hast2, hnm2, hns2, hurn2, hreg2, hcm2, hnb2, hls2⟩ :=
    update_photo_ok_char env (pictureChain i) q1 hhttp hup hav hart
  have hrun1 : update_info cfg env src (some i) true p =
      UpdateResult.mk q2 (Except.ok ()) (b2 || b1) := by
    simp only [update_info, he1, he2, if_true, hsave]
    cases hb : b2 || b1
    · simp [hb]
    · simp [hb]
  have hlast2 : q2.last_info_sync = some env.now := by
    rw [hls2, hls1]
    rfl
  have hname2 : update_name cfg env i q2 = (q2, Except.ok false) := by
    have hcond : ¬(some dn ≠ q2.name ∨ q2.name_set = false) := by
      rw [hnm2, hn1, hns2, hns1]
      simp
    simp only [update_name, hdn, if_neg hcond]
  have hphoto2 : update_photo env (pictureChain i) q2 = (q2, Except.ok false) := by
    have hcond : ¬(extract_photo_id (pictureChain i) ≠ q2.photo_id ∨ q2.avatar_set = false) := by
      rw [hpid2, hast2]
      simp
    simp only [update_photo, if_neg hcond]
  have hrun2 : update_info cfg env src (some i) true q2 =
      UpdateResult.mk q2 (Except.ok ()) false := by
    simp only [update_info, withLastSync_self q2 (some env.now) hlast2, hname2, hphoto2,
      if_true, Bool.or_false]
    simp
  refine ⟨?_, ?_, ?_, ?_⟩
  · rw [hrun1]
  · rw [hrun1]
    show q2.name_set = true
    rw [hns2, hns1]
  · rw [hrun1]
    show q2.avatar_set = true
    exact hast2
  · rw [hrun1]
    show update_info cfg env src (some i) true q2 = UpdateResult.mk q2 (Except.ok ()) false
    exact hrun2

/-- Witness for C6: scenario-A profile with a picture, fresh puppet,
all collaborators succeeding. -/
theorem update_info_idempotent_witness :
    (update_info cfgW envOkW none (some infoPicW) true (newPuppet urnW)).result =
      Except.ok () ∧
    (update_info cfgW envOkW none (some infoPicW) true (newPuppet urnW)).state.name_set = true ∧
    (update_info cfgW envOkW none (some infoPicW) true (newPuppet urnW)).state.avatar_set = true ∧
    update_info cfgW envOkW none (some infoPicW) true
        (update_info cfgW envOkW none (some infoPicW) true (newPuppet urnW)).state =
      UpdateResult.mk (update_info cfgW envOkW none (some infoPicW) true (newPuppet urnW)).state
        (Except.ok ()) false :=
  update_info_idempotent cfgW envOkW none infoPicW (newPuppet urnW) adaNameW rfl
    rfl rfl rfl rfl rfl (fun _ => rfl)

-- endregion

end LinkedinMatrix
